import Mathlib

/-!
Verification model of the pwp-grid-map-api repository.

The embedding translates the Flask resource handlers (src/gridmap/resources),
the URL converters (src/gridmap/converters.py) and the model layer
(src/app/models.py) into pure Lean functions over an explicit database and
request state.  Request bodies are JSON values, the database is a record of
entity tables, and every handler returns the session state it produced, the
set of cache keys it invalidated, and whether it committed the transaction.
Flask-SQLAlchemy removes the session at request teardown, which rolls back
any uncommitted changes; the function persistedDB applies that rule.
-/

namespace GridMap

/-! ## JSON request bodies -/

/-- A JSON value, as parsed by Flask from a request body (request.json).
Numbers are modelled as integers; no claim depends on non-integral values. -/
inductive JVal where
  | null
  | bool (b : Bool)
  | int (n : Int)
  | str (s : String)
  | arr (xs : List JVal)
  | obj (kvs : List (String × JVal))

/-- First binding for a key in an association list (Python dict lookup). -/
def lookupKV : List (String × JVal) → String → Option JVal
  | [], _ => none
  | (k, v) :: rest, key => if k = key then some v else lookupKV rest key

/-- Dictionary lookup on a JSON value; none when the key is absent or the
value is not an object. -/
def JVal.lookup : JVal → String → Option JVal
  | .obj kvs, key => lookupKV kvs key
  | _, _ => none

/-- Replace the first binding of a key, or append it (Python dict assignment). -/
def setKV : List (String × JVal) → String → JVal → List (String × JVal)
  | [], k, v => [(k, v)]
  | (k', v') :: rest, k, v =>
      if k' = k then (k, v) :: rest else (k', v') :: setKV rest k v

/-- Set a key on a JSON object; other values are returned unchanged. -/
def JVal.setKey : JVal → String → JVal → JVal
  | .obj kvs, k, v => .obj (setKV kvs k v)
  | x, _, _ => x

/-- Python truthiness of a JSON value, as used by the handlers in the guard
if not request.json.  None, False, 0, empty string, empty array and empty
object are falsy. -/
def pyFalsy : JVal → Bool
  | .null => true
  | .bool b => !b
  | .int n => n == 0
  | .str s => s == ""
  | .arr xs => xs.isEmpty
  | .obj kvs => kvs.isEmpty

/-! ## Slugs -/

/-- Split a character list into chunks at separator characters. -/
def splitWords : List Char → List (List Char)
  | [] => [[]]
  | c :: rest =>
    let ws := splitWords rest
    if c = ' ' then [] :: ws
    else
      match ws with
      | [] => [[c]]
      | w :: tailWords => (c :: w) :: tailWords

/-- Join non-empty chunks with single hyphens. -/
def slugJoin : List (List Char) → List Char
  | [] => []
  | [w] => w
  | w :: ws => w ++ '-' :: slugJoin ws

/-- Modelled from the spec: the slug derivation performed by the external
python-slugify library (not part of src/): lowercase the name and normalize
runs of non-alphanumeric characters to single hyphens, trimming hyphens at
both ends. -/
def slugify (s : String) : String :=
  let mapped := s.data.map (fun c => if c.isAlphanum then c.toLower else ' ')
  String.mk (slugJoin ((splitWords mapped).filter (fun w => !w.isEmpty)))

/-! ## Schema validation

jsonschema.validate is called with the three concrete schemas returned by
Map.json_schema, Observer.json_schema and Obstacle.json_schema in
src/app/models.py.  The checks below are that validator specialised to those
schemas: the body must be a JSON object, the required properties must be
present, and every declared property that is present must have the declared
type and respect maxLength / minimum.  The result is the validation error,
or none when the body is valid. -/

/-- Check a string property with maxLength 32. -/
def checkStr32 (fname : String) : JVal → Option String
  | .str s => if s.length ≤ 32 then none else some (fname ++ " is too long")
  | _ => some (fname ++ " is not a string")

/-- Check an integer property with a minimum. -/
def checkIntMin (fname : String) (lo : Int) : JVal → Option String
  | .int n => if lo ≤ n then none else some (fname ++ " is below the minimum")
  | _ => some (fname ++ " is not an integer")

/-- Check a required property. -/
def requiredProp (kvs : List (String × JVal)) (key : String)
    (chk : JVal → Option String) : Option String :=
  match lookupKV kvs key with
  | none => some ("required property is missing: " ++ key)
  | some v => chk v

/-- Check an optional property. -/
def optionalProp (kvs : List (String × JVal)) (key : String)
    (chk : JVal → Option String) : Option String :=
  match lookupKV kvs key with
  | none => none
  | some v => chk v

/-- First error of a list of checks. -/
def firstErr : List (Option String) → Option String
  | [] => none
  | none :: rest => firstErr rest
  | some e :: _ => some e

/-- jsonschema.validate against Map.json_schema(): required name, width,
height; name a string of length at most 32; width and height integers of at
least 1. -/
def Map.validate_schema (v : JVal) : Option String :=
  match v with
  | .obj kvs => firstErr
      [ requiredProp kvs "name" (checkStr32 "name"),
        requiredProp kvs "width" (checkIntMin "width" 1),
        requiredProp kvs "height" (checkIntMin "height" 1) ]
  | _ => some "request body is not an object"

/-- jsonschema.validate against Observer.json_schema(): required name, x, y;
name a string of length at most 32; x and y integers of at least 0; optional
vision, a number of at least 0. -/
def Observer.validate_schema (v : JVal) : Option String :=
  match v with
  | .obj kvs => firstErr
      [ requiredProp kvs "name" (checkStr32 "name"),
        requiredProp kvs "x" (checkIntMin "x" 0),
        requiredProp kvs "y" (checkIntMin "y" 0),
        optionalProp kvs "vision" (checkIntMin "vision" 0) ]
  | _ => some "request body is not an object"

/-- jsonschema.validate against Obstacle.json_schema(): required x, y, both
integers of at least 0. -/
def Obstacle.validate_schema (v : JVal) : Option String :=
  match v with
  | .obj kvs => firstErr
      [ requiredProp kvs "x" (checkIntMin "x" 0),
        requiredProp kvs "y" (checkIntMin "y" 0) ]
  | _ => some "request body is not an object"

/-! ## Entity rows and the database -/

/-- A row of the map table (src/app/models.py, class Map). -/
structure MapRec where
  id : Nat
  name : String
  slug : String
  width : Int
  height : Int
deriving Repr, DecidableEq

/-- A row of the observer table (src/app/models.py, class Observer). -/
structure ObserverRec where
  id : Nat
  name : String
  slug : String
  vision : Option Int
  mapId : Nat
  x : Int
  y : Int
deriving Repr, DecidableEq

/-- A row of the obstacle table (src/app/models.py, class Obstacle). -/
structure ObstacleRec where
  id : Nat
  mapId : Nat
  x : Int
  y : Int
deriving Repr, DecidableEq

/-- The relational store: the three tables plus the id sequence the store
assigns to inserted rows. -/
structure DB where
  maps : List MapRec
  observers : List ObserverRec
  obstacles : List ObstacleRec
  nextId : Nat
deriving Repr, DecidableEq

/-! ## Deserialization and updates (src/app/models.py)

The Python methods read object_dict entries dynamically; the schema validator
has already guaranteed their types when the handlers call them.  The Lean
translation folds the type projection into the function and returns none
where the Python code would raise an uncaught KeyError or TypeError (which
the HTTP layer would surface as a 500-class failure). -/

/-- Map.deserialize: builds a new row from name, width and height; slug is
always slugify(name); id comes from the store, never from the client; a
client-supplied slug or id key is never read. -/
def Map.deserialize (nid : Nat) (d : JVal) : Option MapRec :=
  match d.lookup "name", d.lookup "width", d.lookup "height" with
  | some (.str n), some (.int w), some (.int h) =>
      some { id := nid, name := n, slug := slugify n, width := w, height := h }
  | _, _, _ => none

/-- Map.update_from_dict: overwrites name, slug (recomputed with slugify from
the name key; a slug key in the dictionary is ignored even if set), width and
height, keeping the row id. -/
def Map.update_from_dict (m : MapRec) (d : JVal) : Option MapRec :=
  match d.lookup "name", d.lookup "width", d.lookup "height" with
  | some (.str n), some (.int w), some (.int h) =>
      some { m with name := n, slug := slugify n, width := w, height := h }
  | _, _, _ => none

/-- Observer.deserialize: builds a new row from name, x, y and the optional
vision; slug is always slugify(name); the map relationship is attached by the
view method, modelled by the mapId argument. -/
def Observer.deserialize (nid mapId : Nat) (d : JVal) : Option ObserverRec :=
  match d.lookup "name", d.lookup "x", d.lookup "y" with
  | some (.str n), some (.int x), some (.int y) =>
      some { id := nid, name := n, slug := slugify n,
             vision := match d.lookup "vision" with
                       | some (.int q) => some q
                       | _ => none,
             mapId := mapId, x := x, y := y }
  | _, _, _ => none

/-- Observer.update_from_dict: overwrites name, slug (recomputed with slugify
from the name key; a slug key in the dictionary is ignored even if set),
vision, x and y, keeping id and map relationship. -/
def Observer.update_from_dict (o : ObserverRec) (d : JVal) : Option ObserverRec :=
  match d.lookup "name", d.lookup "x", d.lookup "y" with
  | some (.str n), some (.int x), some (.int y) =>
      some { o with name := n, slug := slugify n,
                    vision := match d.lookup "vision" with
                              | some (.int q) => some q
                              | _ => none,
                    x := x, y := y }
  | _, _, _ => none

/-- Obstacle.deserialize: builds a new row from x and y; the map relationship
is attached by the view method, modelled by the mapId argument. -/
def Obstacle.deserialize (nid mapId : Nat) (d : JVal) : Option ObstacleRec :=
  match d.lookup "x", d.lookup "y" with
  | some (.int x), some (.int y) =>
      some { id := nid, mapId := mapId, x := x, y := y }
  | _, _ => none

/-! ## Paths and cache keys

Routing is registered in src/gridmap/api.py under the blueprint prefix /api.
flask-caching stores each GET response under key_prefix plus request.path,
and the handlers invalidate with the same format strings. -/

/-- url_for of api.mapcollection. -/
def mapCollectionPath : String := "/api/maps/"

/-- url_for of api.mapitem: the map converter contributes the slug. -/
def mapItemPath (m : MapRec) : String := "/api/maps/" ++ m.slug ++ "/"

/-- url_for of api.observeritem. -/
def observerItemPath (m : MapRec) (o : ObserverRec) : String :=
  "/api/maps/" ++ m.slug ++ "/observers/" ++ o.slug ++ "/"

/-- url_for of api.mapobservers. -/
def mapObserversPath (m : MapRec) : String :=
  "/api/maps/" ++ m.slug ++ "/observers/"

/-- url_for of api.mapobstacles. -/
def mapObstaclesPath (m : MapRec) : String :=
  "/api/maps/" ++ m.slug ++ "/obstacles/"

/-- url_for of api.obstacleitem. -/
def obstacleItemPath (m : MapRec) (x y : Int) : String :=
  "/api/maps/" ++ m.slug ++ "/obstacles/" ++ toString x ++ "/" ++ toString y ++ "/"

/-- The two cache keys of one resource path: the json-view entry and the
mason-view entry, matching the key_prefix format strings of the cached GET
views and the delete_many calls of the _clean_cache methods. -/
def cacheKeys (path : String) : List String :=
  ["json-view/" ++ path, "mason-view/" ++ path]

/-! ## Handler results -/

/-- The client-visible outcome of one request. -/
inductive Outcome where
  | created (location : String)
  | noContent
  | badRequest (desc : String)
  | notFound
  | conflict (desc : String)
  | unsupportedMediaType
  | serverError
deriving Repr, DecidableEq

/-- What one handler invocation did: the final status, the state of the
SQLAlchemy session when the handler returned, whether db.session.commit()
ran successfully, and the cache keys passed to cache.delete_many. -/
structure RunResult where
  status : Outcome
  sessionDB : DB
  committed : Bool
  invalidated : List String
deriving Repr, DecidableEq

/-- The database as later requests observe it.  Flask-SQLAlchemy removes the
session at request teardown; an uncommitted session is rolled back, so only
committed changes persist. -/
def persistedDB (init : DB) (r : RunResult) : DB :=
  if r.committed then r.sessionDB else init

/-- A terminal error raised before the session was touched. -/
def noEffect (db : DB) (st : Outcome) : RunResult :=
  { status := st, sessionDB := db, committed := false, invalidated := [] }

/-! ## Uniqueness constraints

The map table has unique columns name and slug, and so does the observer
table.  The store raises IntegrityError when a flushed INSERT or UPDATE
collides with another row on one of those columns; excludeId carries the id
of the row being updated, which does not collide with itself. -/

/-- True when inserting or updating a map row with this name and slug would
violate a unique constraint. -/
def mapClash (maps : List MapRec) (excludeId : Option Nat) (name slug : String) : Bool :=
  maps.any (fun m => !(excludeId == some m.id) && (m.name == name || m.slug == slug))

/-- True when inserting or updating an observer row with this name and slug
would violate a unique constraint. -/
def observerClash (obs : List ObserverRec) (excludeId : Option Nat) (name slug : String) : Bool :=
  obs.any (fun o => !(excludeId == some o.id) && (o.name == name || o.slug == slug))

/-! ## Resource handlers (src/gridmap/resources)

Each function is the body of the corresponding view method.  The werkzeug
exceptions raised by the source (UnsupportedMediaType, BadRequest, Conflict)
become terminal outcomes; conflict messages keep the source text with the
quoting characters around the name omitted. -/

/-- MapCollection.post (src/gridmap/resources/map.py): falsy body is 415;
schema failure is 400; the deserialized map is added and committed, an
IntegrityError becomes 409; on success the collection cache keys
(request.path is the collection path) are invalidated and 201 is returned
with the Location of the new map. -/
def MapCollection.post (db : DB) (body : JVal) : RunResult :=
  if pyFalsy body then noEffect db .unsupportedMediaType
  else match Map.validate_schema body with
  | some e => noEffect db (.badRequest e)
  | none =>
    match Map.deserialize db.nextId body with
    | none => noEffect db .serverError
    | some m =>
      let session : DB := { db with maps := db.maps ++ [m], nextId := db.nextId + 1 }
      if mapClash db.maps none m.name m.slug then
        { status := .conflict ("A map named " ++ m.name ++ " already exists"),
          sessionDB := session, committed := false, invalidated := [] }
      else
        { status := .created (mapItemPath m), sessionDB := session,
          committed := true, invalidated := cacheKeys mapCollectionPath }

/-- MapItem.put (src/gridmap/resources/map.py): falsy body is 415; schema
failure is 400; update_from_dict mutates the row in the session, commit may
raise IntegrityError giving 409; on success the collection keys and the
request-path keys (the path still holds the old slug) are invalidated and
204 is returned. -/
def MapItem.put (db : DB) (m : MapRec) (reqPath : String) (body : JVal) : RunResult :=
  if pyFalsy body then noEffect db .unsupportedMediaType
  else match Map.validate_schema body with
  | some e => noEffect db (.badRequest e)
  | none =>
    match Map.update_from_dict m body with
    | none => noEffect db .serverError
    | some m' =>
      let session : DB :=
        { db with maps := db.maps.map (fun r => if r.id = m.id then m' else r) }
      if mapClash db.maps (some m.id) m'.name m'.slug then
        { status := .conflict ("A map named " ++ m'.name ++ " already exists"),
          sessionDB := session, committed := false, invalidated := [] }
      else
        { status := .noContent, sessionDB := session, committed := true,
          invalidated := cacheKeys mapCollectionPath ++ cacheKeys reqPath }

/-- MapItem.delete (src/gridmap/resources/map.py): db.session.delete(map)
cascades to the observers and obstacles of the map, commit runs, and the
collection keys plus the request-path keys are invalidated. -/
def MapItem.delete (db : DB) (m : MapRec) (reqPath : String) : RunResult :=
  { status := .noContent,
    sessionDB :=
      { db with
        maps := db.maps.filter (fun r => !(r.id == m.id)),
        observers := db.observers.filter (fun o => !(o.mapId == m.id)),
        obstacles := db.obstacles.filter (fun o => !(o.mapId == m.id)) },
    committed := true,
    invalidated := cacheKeys mapCollectionPath ++ cacheKeys reqPath }

/-- MapObservers.post (src/gridmap/resources/map.py): falsy body is 415;
schema failure is 400; the deserialized observer must lie inside the parent
map dimensions, else 400 with the outside-map message before any session
write; commit may raise IntegrityError giving 409; on success the parent map
item keys are invalidated and 201 is returned with the observer Location. -/
def MapObservers.post (db : DB) (m : MapRec) (body : JVal) : RunResult :=
  if pyFalsy body then noEffect db .unsupportedMediaType
  else match Observer.validate_schema body with
  | some e => noEffect db (.badRequest e)
  | none =>
    match Observer.deserialize db.nextId m.id body with
    | none => noEffect db .serverError
    | some o =>
      if 0 ≤ o.x ∧ o.x < m.width ∧ 0 ≤ o.y ∧ o.y < m.height then
        let session : DB :=
          { db with observers := db.observers ++ [o], nextId := db.nextId + 1 }
        if observerClash db.observers none o.name o.slug then
          { status := .conflict ("An observer named " ++ o.name ++ " already exists"),
            sessionDB := session, committed := false, invalidated := [] }
        else
          { status := .created (observerItemPath m o), sessionDB := session,
            committed := true, invalidated := cacheKeys (mapItemPath m) }
      else noEffect db (.badRequest "Observer is outside map")

/-- MapObstacles.post (src/gridmap/resources/map.py): falsy body is 415;
schema failure is 400; the deserialized obstacle must lie inside the parent
map dimensions, else 400 with the outside-map message; the commit is not
wrapped in a try block (the obstacle table has no unique columns); on
success the parent map item keys are invalidated and 201 is returned. -/
def MapObstacles.post (db : DB) (m : MapRec) (body : JVal) : RunResult :=
  if pyFalsy body then noEffect db .unsupportedMediaType
  else match Obstacle.validate_schema body with
  | some e => noEffect db (.badRequest e)
  | none =>
    match Obstacle.deserialize db.nextId m.id body with
    | none => noEffect db .serverError
    | some o =>
      if 0 ≤ o.x ∧ o.x < m.width ∧ 0 ≤ o.y ∧ o.y < m.height then
        { status := .created (obstacleItemPath m o.x o.y),
          sessionDB := { db with obstacles := db.obstacles ++ [o], nextId := db.nextId + 1 },
          committed := true, invalidated := cacheKeys (mapItemPath m) }
      else noEffect db (.badRequest "Obstacle is outside map")

/-- ObserverItem.put (src/gridmap/resources/observer.py): falsy body is 415;
schema failure is 400; update_from_dict mutates the observer in the session
first, then the updated position is checked against the dimensions of the map
resolved from the URL, else 400 with the outside-map message (the dirty
session is rolled back at teardown); commit may raise IntegrityError giving
409; on success the parent map item keys and the request-path keys are
invalidated and 204 is returned. -/
def ObserverItem.put (db : DB) (m : MapRec) (o : ObserverRec) (reqPath : String)
    (body : JVal) : RunResult :=
  if pyFalsy body then noEffect db .unsupportedMediaType
  else match Observer.validate_schema body with
  | some e => noEffect db (.badRequest e)
  | none =>
    match Observer.update_from_dict o body with
    | none => noEffect db .serverError
    | some o' =>
      let session : DB :=
        { db with observers := db.observers.map (fun r => if r.id = o.id then o' else r) }
      if 0 ≤ o'.x ∧ o'.x < m.width ∧ 0 ≤ o'.y ∧ o'.y < m.height then
        if observerClash db.observers (some o.id) o'.name o'.slug then
          { status := .conflict ("An observer named " ++ o'.name ++ " already exists"),
            sessionDB := session, committed := false, invalidated := [] }
        else
          { status := .noContent, sessionDB := session, committed := true,
            invalidated := cacheKeys (mapItemPath m) ++ cacheKeys reqPath }
      else
        { status := .badRequest "Observer is outside map", sessionDB := session,
          committed := false, invalidated := [] }

/-- ObserverItem.delete (src/gridmap/resources/observer.py): the observer row
is deleted and committed; the parent map item keys (for the map resolved from
the URL) and the request-path keys are invalidated; 204. -/
def ObserverItem.delete (db : DB) (m : MapRec) (o : ObserverRec) (reqPath : String) :
    RunResult :=
  { status := .noContent,
    sessionDB := { db with observers := db.observers.filter (fun r => !(r.id == o.id)) },
    committed := true,
    invalidated := cacheKeys (mapItemPath m) ++ cacheKeys reqPath }

/-- ObstacleItem.delete (src/gridmap/resources/obstacle.py): a query-level
bulk delete removes every obstacle row matching (map_id, x, y) inside the
session, but the source never calls db.session.commit(), so committed is
false and the deletion is rolled back at request teardown; the parent map
item keys are nevertheless invalidated and 204 is returned. -/
def ObstacleItem.delete (db : DB) (m : MapRec) (x y : Int) : RunResult :=
  { status := .noContent,
    sessionDB :=
      { db with obstacles :=
          db.obstacles.filter (fun r => !(r.mapId == m.id && r.x == x && r.y == y)) },
    committed := false,
    invalidated := cacheKeys (mapItemPath m) }

/-! ## URL converters and routes (src/gridmap/converters.py, src/gridmap/api.py)

The converters resolve each URL segment before the view method runs and
raise NotFound when no row matches; the observer converter looks the slug up
in the global observer table with no reference to the map segment. -/

/-- MapConverter.to_python: first map row with the requested slug, NotFound
when there is none. -/
def MapConverter.to_python (db : DB) (slug : String) : Option MapRec :=
  (db.maps.filter (fun m => m.slug == slug)).head?

/-- ObserverConverter.to_python: first observer row with the requested slug,
from the whole observer table, NotFound when there is none. -/
def ObserverConverter.to_python (db : DB) (slug : String) : Option ObserverRec :=
  (db.observers.filter (fun o => o.slug == slug)).head?

/-- Route POST /api/maps/. -/
def routeMapCollectionPost (db : DB) (body : JVal) : RunResult :=
  MapCollection.post db body

/-- Route PUT /api/maps/(slug)/. -/
def routeMapItemPut (db : DB) (slug : String) (body : JVal) : RunResult :=
  match MapConverter.to_python db slug with
  | none => noEffect db .notFound
  | some m => MapItem.put db m ("/api/maps/" ++ slug ++ "/") body

/-- Route DELETE /api/maps/(slug)/. -/
def routeMapItemDelete (db : DB) (slug : String) : RunResult :=
  match MapConverter.to_python db slug with
  | none => noEffect db .notFound
  | some m => MapItem.delete db m ("/api/maps/" ++ slug ++ "/")

/-- Route POST /api/maps/(slug)/observers/. -/
def routeMapObserversPost (db : DB) (slug : String) (body : JVal) : RunResult :=
  match MapConverter.to_python db slug with
  | none => noEffect db .notFound
  | some m => MapObservers.post db m body

/-- Route POST /api/maps/(slug)/obstacles/. -/
def routeMapObstaclesPost (db : DB) (slug : String) (body : JVal) : RunResult :=
  match MapConverter.to_python db slug with
  | none => noEffect db .notFound
  | some m => MapObstacles.post db m body

/-- Route PUT /api/maps/(mapslug)/observers/(obsslug)/.  Both converters must
resolve; the observer is found by its slug alone, with no check that it
belongs to the map of the first segment. -/
def routeObserverItemPut (db : DB) (mslug oslug : String) (body : JVal) : RunResult :=
  match MapConverter.to_python db mslug with
  | none => noEffect db .notFound
  | some m =>
    match ObserverConverter.to_python db oslug with
    | none => noEffect db .notFound
    | some o =>
      ObserverItem.put db m o ("/api/maps/" ++ mslug ++ "/observers/" ++ oslug ++ "/") body

/-- Route DELETE /api/maps/(mapslug)/observers/(obsslug)/. -/
def routeObserverItemDelete (db : DB) (mslug oslug : String) : RunResult :=
  match MapConverter.to_python db mslug with
  | none => noEffect db .notFound
  | some m =>
    match ObserverConverter.to_python db oslug with
    | none => noEffect db .notFound
    | some o =>
      ObserverItem.delete db m o ("/api/maps/" ++ mslug ++ "/observers/" ++ oslug ++ "/")

/-- Route DELETE /api/maps/(slug)/obstacles/(x)/(y)/. -/
def routeObstacleItemDelete (db : DB) (slug : String) (x y : Int) : RunResult :=
  match MapConverter.to_python db slug with
  | none => noEffect db .notFound
  | some m => ObstacleItem.delete db m x y

/-! ## Serialization and hypermedia controls (src/app/models.py, src/app/utils.py)

The Mason builder assembles a controls dictionary per serialized entity.  A
control records its target href, the optional method property (add_control
without kwargs adds no method, the PUT and DELETE shorthands fix it) and
whether a schema document is attached. -/

/-- Modelled from the spec: profile URI constants from the constants module,
which is not part of src/; the values never matter to any claim. -/
def MAP_PROFILE : String := "/profiles/map/"

/-- Modelled from the spec: profile URI constant for observers, from the
constants module which is not part of src/. -/
def OBSERVER_PROFILE : String := "/profiles/observer/"

/-- One hypermedia control as assembled by MasonBuilder.add_control and its
shorthands. -/
structure Control where
  href : String
  method : Option String
  hasSchema : Bool
deriving Repr, DecidableEq

/-- A serialized field value: string, integer, or nullable number column. -/
inductive FieldVal where
  | s (v : String)
  | i (v : Int)
  | oi (v : Option Int)
deriving Repr, DecidableEq

/-- The serialized form of an entity: the controls dictionary (empty for the
plain representation) and the data fields. -/
structure ChildDoc where
  controls : List (String × Control)
  fields : List (String × FieldVal)
deriving Repr, DecidableEq

/-- The serialized form of a map: controls, data fields, and the optional
relation arrays added when include_relations is set. -/
structure MapDoc where
  controls : List (String × Control)
  fields : List (String × FieldVal)
  observers : Option (List ChildDoc)
  obstacles : Option (List ChildDoc)
deriving Repr, DecidableEq

/-- Observer.serialize: with use_mason, a self control always; with primary
additionally up, edit (PUT with schema), pwp-map:delete and profile.  The
parent map of the observer supplies the URLs, passed here explicitly. -/
def Observer.serialize (m : MapRec) (o : ObserverRec)
    (include_relations use_mason primary : Bool) : ChildDoc :=
  { controls :=
      if use_mason then
        [("self", { href := observerItemPath m o, method := none, hasSchema := false })] ++
        (if primary then
          [("up", { href := mapItemPath m, method := none, hasSchema := false }),
           ("edit", { href := observerItemPath m o, method := some "PUT", hasSchema := true }),
           ("pwp-map:delete", { href := observerItemPath m o, method := some "DELETE", hasSchema := false }),
           ("profile", { href := OBSERVER_PROFILE, method := none, hasSchema := false })]
         else [])
      else [],
    fields :=
      [("name", .s o.name), ("slug", .s o.slug), ("vision", .oi o.vision),
       ("x", .i o.x), ("y", .i o.y)] ++
      (if include_relations then [("map_name", .s m.name), ("map_slug", .s m.slug)] else []) }

/-- Obstacle.serialize: with use_mason, only the pwp-map:delete control is
added, regardless of primary (obstacles have no GET method). -/
def Obstacle.serialize (m : MapRec) (ob : ObstacleRec)
    (include_relations use_mason primary : Bool) : ChildDoc :=
  { controls :=
      if use_mason then
        [("pwp-map:delete",
          { href := obstacleItemPath m ob.x ob.y, method := some "DELETE", hasSchema := false })]
      else [],
    fields :=
      [("x", .i ob.x), ("y", .i ob.y)] ++
      (if include_relations then [("map_name", .s m.name), ("map_slug", .s m.slug)] else []) }

/-- The observers of a map, through the back-populated relationship. -/
def DB.mapObservers (db : DB) (m : MapRec) : List ObserverRec :=
  db.observers.filter (fun o => o.mapId == m.id)

/-- The obstacles of a map, through the back-populated relationship. -/
def DB.mapObstacles (db : DB) (m : MapRec) : List ObstacleRec :=
  db.obstacles.filter (fun o => o.mapId == m.id)

/-- Map.serialize: with use_mason, a self control always, and with primary
the full control set; with include_relations, the observer and obstacle
relation arrays serialized with the same use_mason flag and the default
primary of False. -/
def Map.serialize (db : DB) (m : MapRec)
    (include_relations use_mason primary : Bool) : MapDoc :=
  { controls :=
      if use_mason then
        [("self", { href := mapItemPath m, method := none, hasSchema := false })] ++
        (if primary then
          [("collection", { href := mapCollectionPath, method := none, hasSchema := false }),
           ("edit", { href := mapItemPath m, method := some "PUT", hasSchema := true }),
           ("pwp-map:delete", { href := mapItemPath m, method := some "DELETE", hasSchema := false }),
           ("profile", { href := MAP_PROFILE, method := none, hasSchema := false }),
           ("pwp-map:create-observer", { href := mapObserversPath m, method := some "POST", hasSchema := true }),
           ("pwp-map:create-obstacle", { href := mapObstaclesPath m, method := some "POST", hasSchema := true })]
         else [])
      else [],
    fields :=
      [("name", .s m.name), ("slug", .s m.slug),
       ("width", .i m.width), ("height", .i m.height)],
    observers :=
      if include_relations then
        some ((db.mapObservers m).map (fun o => Observer.serialize m o false use_mason false))
      else none,
    obstacles :=
      if include_relations then
        some ((db.mapObstacles m).map (fun ob => Obstacle.serialize m ob false use_mason false))
      else none }

/-! ## Concrete fixtures

A small database mirroring the fixed rows of the test fixture
(src/tests/utils.py, populate_db): one 50 by 40 map holding one observer and
one obstacle, plus one empty map. -/

/-- Fixture map, 50 by 40. -/
def m1 : MapRec :=
  { id := 1, name := "Test Map 1", slug := "test-map-1", width := 50, height := 40 }

/-- Fixture map with no children. -/
def m2 : MapRec :=
  { id := 2, name := "Test Map 2", slug := "test-map-2", width := 10, height := 10 }

/-- Fixture observer, placed on map 1. -/
def o1 : ObserverRec :=
  { id := 3, name := "Test Observer 1", slug := "test-observer-1",
    vision := some 5, mapId := 1, x := 0, y := 0 }

/-- Fixture obstacle at tile (49, 39) of map 1. -/
def b1 : ObstacleRec := { id := 4, mapId := 1, x := 49, y := 39 }

/-- Fixture database. -/
def db1 : DB := { maps := [m1, m2], observers := [o1], obstacles := [b1], nextId := 5 }

/-! ## Helper lemmas -/

/-- Setting one key leaves the lookup of a different key unchanged. -/
theorem lookupKV_setKV_ne (kvs : List (String × JVal)) (k : String) (v : JVal)
    (k' : String) (h : k' ≠ k) : lookupKV (setKV kvs k v) k' = lookupKV kvs k' := by
  induction kvs with
  | nil => simp [setKV, lookupKV, h.symm]
  | cons kv rest ih =>
    obtain ⟨a, b⟩ := kv
    by_cases hk : a = k
    · subst hk
      simp [setKV, lookupKV, h.symm]
    · simp [setKV, lookupKV, hk, ih]

/-- Setting one key on a JSON value leaves the lookup of a different key
unchanged. -/
theorem lookup_setKey_ne (d : JVal) (k : String) (v : JVal) (k' : String)
    (h : k' ≠ k) : (d.setKey k v).lookup k' = d.lookup k' := by
  cases d <;> simp [JVal.setKey, JVal.lookup]
  exact lookupKV_setKV_ne _ k v k' h

/-- A json-view cache key is never a mason-view cache key. -/
theorem jsonKey_ne_masonKey (p q : String) : "json-view/" ++ p ≠ "mason-view/" ++ q := by
  intro h
  have hd := congrArg String.data h
  rw [String.data_append, String.data_append] at hd
  have h1 : ("json-view/").data = 'j' :: "son-view/".data := rfl
  have h2 : ("mason-view/").data = 'm' :: "ason-view/".data := rfl
  rw [h1, h2, List.cons_append, List.cons_append] at hd
  exact absurd (List.head_eq_of_cons_eq hd) (by decide)

/-- json-view cache keys of distinct paths are distinct. -/
theorem jsonKey_inj (p q : String) (h : p ≠ q) : "json-view/" ++ p ≠ "json-view/" ++ q := by
  intro hc
  apply h
  have hd := congrArg String.data hc
  rw [String.data_append, String.data_append] at hd
  exact String.ext (List.append_cancel_left hd)

/-- mason-view cache keys of distinct paths are distinct. -/
theorem masonKey_inj (p q : String) (h : p ≠ q) : "mason-view/" ++ p ≠ "mason-view/" ++ q := by
  intro hc
  apply h
  have hd := congrArg String.data hc
  rw [String.data_append, String.data_append] at hd
  exact String.ext (List.append_cancel_left hd)

/-- No cache key of a path other than the collection path is a cache key of
the collection path. -/
theorem cacheKeys_not_collection (p : String) (h : p ≠ mapCollectionPath) :
    ∀ k ∈ cacheKeys p, k ∉ cacheKeys mapCollectionPath := by
  intro k hk hcoll
  simp only [cacheKeys, List.mem_cons, List.not_mem_nil, or_false] at hk hcoll
  rcases hk with rfl | rfl <;> rcases hcoll with hc | hc
  · exact jsonKey_inj p mapCollectionPath h hc
  · exact jsonKey_ne_masonKey p mapCollectionPath hc
  · exact jsonKey_ne_masonKey mapCollectionPath p hc.symm
  · exact masonKey_inj p mapCollectionPath h hc

/-- The item path of a map is never the collection path. -/
theorem mapItemPath_ne_collection (m : MapRec) : mapItemPath m ≠ mapCollectionPath := by
  intro h
  have hl := congrArg String.length h
  rw [mapItemPath, mapCollectionPath, String.length_append, String.length_append] at hl
  have h10 : ("/api/maps/").length = 10 := by decide
  have h1 : ("/").length = 1 := by decide
  rw [h10, h1] at hl
  omega

/-- The request path of an observer item is never the collection path. -/
theorem observerReqPath_ne_collection (ms os : String) :
    "/api/maps/" ++ ms ++ "/observers/" ++ os ++ "/" ≠ mapCollectionPath := by
  intro h
  have hl := congrArg String.length h
  rw [mapCollectionPath, String.length_append, String.length_append,
      String.length_append, String.length_append] at hl
  have h10 : ("/api/maps/").length = 10 := by decide
  have h11 : ("/observers/").length = 11 := by decide
  have h1 : ("/").length = 1 := by decide
  rw [h10, h11, h1] at hl
  omega

/-- A resolved map converter value is a row of the map table carrying the
requested slug. -/
theorem mapConverter_mem (db : DB) (s : String) (m : MapRec)
    (h : MapConverter.to_python db s = some m) : m ∈ db.maps ∧ m.slug = s := by
  obtain ⟨ys, hys⟩ := List.head?_eq_some_iff.mp h
  have hm : m ∈ db.maps.filter (fun r => r.slug == s) := by
    rw [hys]; exact List.mem_cons_self _ _
  rw [List.mem_filter] at hm
  exact ⟨hm.1, by simpa using hm.2⟩

/-- A resolved observer converter value is a row of the observer table
carrying the requested slug. -/
theorem observerConverter_mem (db : DB) (s : String) (o : ObserverRec)
    (h : ObserverConverter.to_python db s = some o) : o ∈ db.observers ∧ o.slug = s := by
  obtain ⟨ys, hys⟩ := List.head?_eq_some_iff.mp h
  have hm : o ∈ db.observers.filter (fun r => r.slug == s) := by
    rw [hys]; exact List.mem_cons_self _ _
  rw [List.mem_filter] at hm
  exact ⟨hm.1, by simpa using hm.2⟩

/-- The map converter resolves the slug of any row of the map table. -/
theorem mapConverter_isSome (db : DB) (m : MapRec) (h : m ∈ db.maps) :
    (MapConverter.to_python db m.slug).isSome := by
  rw [MapConverter.to_python, List.head?_isSome]
  intro hnil
  have := List.filter_eq_nil_iff.mp hnil m h
  simp at this

/-- The observer converter resolves the slug of any row of the observer
table, regardless of which map the row belongs to. -/
theorem observerConverter_isSome (db : DB) (o : ObserverRec) (h : o ∈ db.observers) :
    (ObserverConverter.to_python db o.slug).isSome := by
  rw [ObserverConverter.to_python, List.head?_isSome]
  intro hnil
  have := List.filter_eq_nil_iff.mp hnil o h
  simp at this

/-! ## Claims -/

/-- Claim C1: cache invalidation should happen only after the persistence
transaction has committed successfully, and a failed write must leave the
cache untouched.  The code violates the first half: the obstacle tuple
DELETE route invalidates the parent map item cache keys in both
representations even though ObstacleItem.delete never calls
db.session.commit(), so no transaction ever commits on that path and the
session is rolled back at teardown. -/
theorem C1_obstacle_delete_invalidates_without_commit :
    (routeObstacleItemDelete db1 "test-map-1" 49 39).invalidated =
      cacheKeys (mapItemPath m1) ∧
    (routeObstacleItemDelete db1 "test-map-1" 49 39).committed = false ∧
    persistedDB db1 (routeObstacleItemDelete db1 "test-map-1" 49 39) = db1 := by
  decide

/-- Claim C5: DELETE on the obstacle tuple route should return 204 and
remove, in a committed transaction, every obstacle row matching the map id
and coordinates.  The code returns 204 and runs the query-level delete, but
never commits, so after request teardown the obstacle still exists and a
subsequent read of the map still shows it. -/
theorem C5_obstacle_delete_not_persisted :
    (routeObstacleItemDelete db1 "test-map-1" 49 39).status = .noContent ∧
    persistedDB db1 (routeObstacleItemDelete db1 "test-map-1" 49 39) = db1 ∧
    b1 ∈ (persistedDB db1 (routeObstacleItemDelete db1 "test-map-1" 49 39)).obstacles := by
  decide

/-- Claim C10: for every body-carrying mutation, a request body that is
valid JSON but falsy in the Python sense (empty object, null, 0, false,
empty string, empty array) is rejected with 415 Unsupported Media Type by
the guard before schema validation runs, and nothing is persisted or
invalidated. -/
theorem C10_falsy_body_is_415 (db : DB) (m : MapRec) (o : ObserverRec)
    (rp : String) (body : JVal) (h : pyFalsy body = true) :
    MapCollection.post db body = noEffect db .unsupportedMediaType ∧
    MapItem.put db m rp body = noEffect db .unsupportedMediaType ∧
    MapObservers.post db m body = noEffect db .unsupportedMediaType ∧
    MapObstacles.post db m body = noEffect db .unsupportedMediaType ∧
    ObserverItem.put db m o rp body = noEffect db .unsupportedMediaType := by
  refine ⟨?_, ?_, ?_, ?_, ?_⟩ <;>
    simp [MapCollection.post, MapItem.put, MapObservers.post, MapObstacles.post,
          ObserverItem.put, h]

/-- Claim C10 witness: the empty JSON object fails the map schema, yet the
map POST answers 415, not 400, and leaves the state alone. -/
theorem C10_witness :
    Map.validate_schema (JVal.obj []) = some "required property is missing: name" ∧
    MapCollection.post db1 (JVal.obj []) = noEffect db1 .unsupportedMediaType :=
  ⟨by decide,
   (C10_falsy_body_is_415 db1 m1 o1 "/api/maps/" (JVal.obj []) (by decide)).1⟩

/-- Map.deserialize reads only the name, width and height keys. -/
theorem map_deserialize_congr (nid : Nat) (d d' : JVal)
    (hn : d.lookup "name" = d'.lookup "name")
    (hw : d.lookup "width" = d'.lookup "width")
    (hh : d.lookup "height" = d'.lookup "height") :
    Map.deserialize nid d = Map.deserialize nid d' := by
  unfold Map.deserialize
  rw [hn, hw, hh]

/-- Map.update_from_dict reads only the name, width and height keys. -/
theorem map_update_congr (m : MapRec) (d d' : JVal)
    (hn : d.lookup "name" = d'.lookup "name")
    (hw : d.lookup "width" = d'.lookup "width")
    (hh : d.lookup "height" = d'.lookup "height") :
    Map.update_from_dict m d = Map.update_from_dict m d' := by
  unfold Map.update_from_dict
  rw [hn, hw, hh]

/-- Observer.deserialize reads only the name, x, y and vision keys. -/
theorem observer_deserialize_congr (nid mid : Nat) (d d' : JVal)
    (hn : d.lookup "name" = d'.lookup "name")
    (hx : d.lookup "x" = d'.lookup "x")
    (hy : d.lookup "y" = d'.lookup "y")
    (hv : d.lookup "vision" = d'.lookup "vision") :
    Observer.deserialize nid mid d = Observer.deserialize nid mid d' := by
  unfold Observer.deserialize
  rw [hn, hx, hy, hv]

/-- Observer.update_from_dict reads only the name, x, y and vision keys. -/
theorem observer_update_congr (o : ObserverRec) (d d' : JVal)
    (hn : d.lookup "name" = d'.lookup "name")
    (hx : d.lookup "x" = d'.lookup "x")
    (hy : d.lookup "y" = d'.lookup "y")
    (hv : d.lookup "vision" = d'.lookup "vision") :
    Observer.update_from_dict o d = Observer.update_from_dict o d' := by
  unfold Observer.update_from_dict
  rw [hn, hx, hy, hv]

/-- Claim C4: after any Map or Observer create or update, the slug of the
entity equals slugify of its name, and a client-supplied slug or id key in
the input document is ignored by all four operations, so no sequence of
creates and name updates can make slug differ from slugify(name). -/
theorem C4_slug_always_slugify_name :
    (∀ nid d m, Map.deserialize nid d = some m → m.slug = slugify m.name) ∧
    (∀ m0 d m, Map.update_from_dict m0 d = some m → m.slug = slugify m.name) ∧
    (∀ nid mid d o, Observer.deserialize nid mid d = some o → o.slug = slugify o.name) ∧
    (∀ o0 d o, Observer.update_from_dict o0 d = some o → o.slug = slugify o.name) ∧
    (∀ nid d v, Map.deserialize nid (d.setKey "slug" v) = Map.deserialize nid d ∧
                Map.deserialize nid (d.setKey "id" v) = Map.deserialize nid d) ∧
    (∀ m0 d v, Map.update_from_dict m0 (d.setKey "slug" v) = Map.update_from_dict m0 d ∧
               Map.update_from_dict m0 (d.setKey "id" v) = Map.update_from_dict m0 d) ∧
    (∀ nid mid d v,
       Observer.deserialize nid mid (d.setKey "slug" v) = Observer.deserialize nid mid d ∧
       Observer.deserialize nid mid (d.setKey "id" v) = Observer.deserialize nid mid d) ∧
    (∀ o0 d v,
       Observer.update_from_dict o0 (d.setKey "slug" v) = Observer.update_from_dict o0 d ∧
       Observer.update_from_dict o0 (d.setKey "id" v) = Observer.update_from_dict o0 d) := by
  refine ⟨?_, ?_, ?_, ?_, ?_, ?_, ?_, ?_⟩
  · intro nid d m h
    unfold Map.deserialize at h
    split at h
    · cases h; rfl
    · cases h
  · intro m0 d m h
    unfold Map.update_from_dict at h
    split at h
    · cases h; rfl
    · cases h
  · intro nid mid d o h
    unfold Observer.deserialize at h
    split at h
    · cases h; rfl
    · cases h
  · intro o0 d o h
    unfold Observer.update_from_dict at h
    split at h
    · cases h; rfl
    · cases h
  · intro nid d v
    exact ⟨map_deserialize_congr nid _ _ (lookup_setKey_ne d _ v _ (by decide))
             (lookup_setKey_ne d _ v _ (by decide)) (lookup_setKey_ne d _ v _ (by decide)),
           map_deserialize_congr nid _ _ (lookup_setKey_ne d _ v _ (by decide))
             (lookup_setKey_ne d _ v _ (by decide)) (lookup_setKey_ne d _ v _ (by decide))⟩
  · intro m0 d v
    exact ⟨map_update_congr m0 _ _ (lookup_setKey_ne d _ v _ (by decide))
             (lookup_setKey_ne d _ v _ (by decide)) (lookup_setKey_ne d _ v _ (by decide)),
           map_update_congr m0 _ _ (lookup_setKey_ne d _ v _ (by decide))
             (lookup_setKey_ne d _ v _ (by decide)) (lookup_setKey_ne d _ v _ (by decide))⟩
  · intro nid mid d v
    exact ⟨observer_deserialize_congr nid mid _ _ (lookup_setKey_ne d _ v _ (by decide))
             (lookup_setKey_ne d _ v _ (by decide)) (lookup_setKey_ne d _ v _ (by decide))
             (lookup_setKey_ne d _ v _ (by decide)),
           observer_deserialize_congr nid mid _ _ (lookup_setKey_ne d _ v _ (by decide))
             (lookup_setKey_ne d _ v _ (by decide)) (lookup_setKey_ne d _ v _ (by decide))
             (lookup_setKey_ne d _ v _ (by decide))⟩
  · intro o0 d v
    exact ⟨observer_update_congr o0 _ _ (lookup_setKey_ne d _ v _ (by decide))
             (lookup_setKey_ne d _ v _ (by decide)) (lookup_setKey_ne d _ v _ (by decide))
             (lookup_setKey_ne d _ v _ (by decide)),
           observer_update_congr o0 _ _ (lookup_setKey_ne d _ v _ (by decide))
             (lookup_setKey_ne d _ v _ (by decide)) (lookup_setKey_ne d _ v _ (by decide))
             (lookup_setKey_ne d _ v _ (by decide))⟩

/-- Claim C4 witness: a map creation whose body smuggles a slug key still
gets the server-derived slug. -/
theorem C4_witness :
    Map.deserialize 7 ((JVal.obj [("name", .str "Grid A"), ("width", .int 10),
        ("height", .int 10)]).setKey "slug" (.str "evil")) =
      Map.deserialize 7 (JVal.obj [("name", .str "Grid A"), ("width", .int 10),
        ("height", .int 10)]) ∧
    (MapRec.mk 7 "Grid A" "grid-a" 10 10).slug =
      slugify (MapRec.mk 7 "Grid A" "grid-a" 10 10).name :=
  ⟨(C4_slug_always_slugify_name.2.2.2.2.1 7 _ (.str "evil")).1,
   C4_slug_always_slugify_name.1 7
     (JVal.obj [("name", .str "Grid A"), ("width", .int 10), ("height", .int 10)])
     (MapRec.mk 7 "Grid A" "grid-a" 10 10) (by decide)⟩

/-- Claim C8: in the Mason representation of a Map item GET (serialize with
include_relations, use_mason and primary all set), every observer nested in
the relation array carries exactly the self control, and every nested
obstacle carries exactly the pwp-map:delete control, whose method is DELETE,
with no self or GET navigation control. -/
theorem C8_nested_relation_controls (db : DB) (m : MapRec) :
    (∀ cd ∈ (Map.serialize db m true true true).observers.getD [],
       cd.controls.map Prod.fst = ["self"]) ∧
    (∀ cd ∈ (Map.serialize db m true true true).obstacles.getD [],
       cd.controls.map Prod.fst = ["pwp-map:delete"] ∧
       ∀ nc ∈ cd.controls, nc.2.method = some "DELETE") := by
  constructor
  · intro cd hcd
    simp only [Map.serialize, if_true, Option.getD_some] at hcd
    rcases List.mem_map.mp hcd with ⟨o, _, rfl⟩
    rfl
  · intro cd hcd
    simp only [Map.serialize, if_true, Option.getD_some] at hcd
    rcases List.mem_map.mp hcd with ⟨ob, _, rfl⟩
    refine ⟨rfl, ?_⟩
    intro nc hnc
    simp only [Obstacle.serialize, if_true, List.mem_singleton] at hnc
    subst hnc
    rfl

/-- Claim C8 witness: the fixture map serialized as the primary subject of a
Mason GET nests its observer with exactly the self control and its obstacle
with exactly the DELETE-method delete control. -/
theorem C8_witness :
    (Observer.serialize m1 o1 false true false).controls.map Prod.fst = ["self"] ∧
    (Obstacle.serialize m1 b1 false true false).controls.map Prod.fst = ["pwp-map:delete"] :=
  ⟨(C8_nested_relation_controls db1 m1).1 (Observer.serialize m1 o1 false true false)
     (by decide),
   ((C8_nested_relation_controls db1 m1).2 (Obstacle.serialize m1 b1 false true false)
     (by decide)).1⟩

/-- Claim C9: observer item routes resolve the observer by its slug alone in
the global observer table; any existing map slug combined with any existing
observer slug resolves, no check ties the observer to the map of the first
URL segment, and the operation then acts on that observer while cache
invalidation is computed from the map resolved from the URL. -/
theorem C9_observer_resolved_by_slug_alone :
    (∀ db m o, m ∈ db.maps → o ∈ db.observers →
       (MapConverter.to_python db m.slug).isSome ∧
       (ObserverConverter.to_python db o.slug).isSome) ∧
    (∀ db ms os m o, MapConverter.to_python db ms = some m →
       ObserverConverter.to_python db os = some o →
       routeObserverItemDelete db ms os =
         ObserverItem.delete db m o ("/api/maps/" ++ ms ++ "/observers/" ++ os ++ "/") ∧
       (routeObserverItemDelete db ms os).status = .noContent ∧
       (routeObserverItemDelete db ms os).invalidated =
         cacheKeys (mapItemPath m) ++
           cacheKeys ("/api/maps/" ++ ms ++ "/observers/" ++ os ++ "/") ∧
       persistedDB db (routeObserverItemDelete db ms os) =
         { db with observers := db.observers.filter (fun r => !(r.id == o.id)) }) ∧
    (∀ db ms os body m o, MapConverter.to_python db ms = some m →
       ObserverConverter.to_python db os = some o →
       routeObserverItemPut db ms os body =
         ObserverItem.put db m o ("/api/maps/" ++ ms ++ "/observers/" ++ os ++ "/") body) := by
  refine ⟨?_, ?_, ?_⟩
  · intro db m o hm ho
    exact ⟨mapConverter_isSome db m hm, observerConverter_isSome db o ho⟩
  · intro db ms os m o hm ho
    have hroute : routeObserverItemDelete db ms os =
        ObserverItem.delete db m o ("/api/maps/" ++ ms ++ "/observers/" ++ os ++ "/") := by
      simp only [routeObserverItemDelete, hm, ho]
    refine ⟨hroute, ?_, ?_, ?_⟩ <;> rw [hroute] <;> rfl
  · intro db ms os body m o hm ho
    simp only [routeObserverItemPut, hm, ho]

/-- Claim C9 witness: the fixture observer lives on map 1, yet the delete
route under the slug of map 2 resolves it, removes it, and invalidates the
cache keys of map 2. -/
theorem C9_witness :
    routeObserverItemDelete db1 "test-map-2" "test-observer-1" =
      ObserverItem.delete db1 m2 o1
        ("/api/maps/" ++ "test-map-2" ++ "/observers/" ++ "test-observer-1" ++ "/") ∧
    persistedDB db1 (routeObserverItemDelete db1 "test-map-2" "test-observer-1") =
      { db1 with observers := db1.observers.filter (fun r => !(r.id == o1.id)) } :=
  ⟨(C9_observer_resolved_by_slug_alone.2.1 db1 "test-map-2" "test-observer-1" m2 o1
      (by decide) (by decide)).1,
   (C9_observer_resolved_by_slug_alone.2.1 db1 "test-map-2" "test-observer-1" m2 o1
      (by decide) (by decide)).2.2.2⟩

/-- Claim C2 counterexample: a successful observer POST (201) does not
invalidate the cache keys of the created observer item path, although the
claim requires every successful observer mutation to invalidate that item
path; only the parent map item keys are removed. -/
theorem C2_counterexample :
    (routeMapObserversPost db1 "test-map-1"
        (JVal.obj [("name", .str "Bob"), ("x", .int 3), ("y", .int 4)])).status =
      .created "/api/maps/test-map-1/observers/bob/" ∧
    "json-view//api/maps/test-map-1/observers/bob/" ∉
      (routeMapObserversPost db1 "test-map-1"
        (JVal.obj [("name", .str "Bob"), ("x", .int 3), ("y", .int 4)])).invalidated ∧
    "mason-view//api/maps/test-map-1/observers/bob/" ∉
      (routeMapObserversPost db1 "test-map-1"
        (JVal.obj [("name", .str "Bob"), ("x", .int 3), ("y", .int 4)])).invalidated := by
  decide

/-- Claim C2 as amended: a successful Observer or Obstacle POST invalidates
exactly the parent map item path keys in both representations (never the
fresh item path); a successful Observer PUT or DELETE invalidates exactly
the URL map item path keys plus the request path keys, in both
representations; the obstacle tuple DELETE invalidates exactly the URL map
item path keys; and no child mutation ever invalidates a Map collection
path key. -/
theorem C2_child_mutation_invalidation :
    (∀ db m body loc, (MapObservers.post db m body).status = .created loc →
       (MapObservers.post db m body).invalidated = cacheKeys (mapItemPath m)) ∧
    (∀ db m body loc, (MapObstacles.post db m body).status = .created loc →
       (MapObstacles.post db m body).invalidated = cacheKeys (mapItemPath m)) ∧
    (∀ db m o rp body, (ObserverItem.put db m o rp body).status = .noContent →
       (ObserverItem.put db m o rp body).invalidated =
         cacheKeys (mapItemPath m) ++ cacheKeys rp) ∧
    (∀ db m o rp, (ObserverItem.delete db m o rp).invalidated =
       cacheKeys (mapItemPath m) ++ cacheKeys rp) ∧
    (∀ db m x y, (ObstacleItem.delete db m x y).invalidated =
       cacheKeys (mapItemPath m)) ∧
    (∀ db ms body k, k ∈ (routeMapObserversPost db ms body).invalidated →
       k ∉ cacheKeys mapCollectionPath) ∧
    (∀ db ms body k, k ∈ (routeMapObstaclesPost db ms body).invalidated →
       k ∉ cacheKeys mapCollectionPath) ∧
    (∀ db ms os body k, k ∈ (routeObserverItemPut db ms os body).invalidated →
       k ∉ cacheKeys mapCollectionPath) ∧
    (∀ db ms os k, k ∈ (routeObserverItemDelete db ms os).invalidated →
       k ∉ cacheKeys mapCollectionPath) ∧
    (∀ db ms x y k, k ∈ (routeObstacleItemDelete db ms x y).invalidated →
       k ∉ cacheKeys mapCollectionPath) := by
  refine ⟨?_, ?_, ?_, ?_, ?_, ?_, ?_, ?_, ?_, ?_⟩
  · intro db m body loc
    unfold MapObservers.post
    repeat' split
    all_goals intro h
    all_goals first | rfl | simp [noEffect] at h
  · intro db m body loc
    unfold MapObstacles.post
    repeat' split
    all_goals intro h
    all_goals first | rfl | simp [noEffect] at h
  · intro db m o rp body
    unfold ObserverItem.put
    repeat' split
    all_goals intro h
    all_goals first | rfl | simp [noEffect] at h
  · intro db m o rp
    rfl
  · intro db m x y
    rfl
  · intro db ms body k
    unfold routeMapObserversPost MapObservers.post
    repeat' split
    all_goals intro hk
    all_goals try simp [noEffect] at hk
    exact cacheKeys_not_collection _ (mapItemPath_ne_collection _) k hk
  · intro db ms body k
    unfold routeMapObstaclesPost MapObstacles.post
    repeat' split
    all_goals intro hk
    all_goals try simp [noEffect] at hk
    exact cacheKeys_not_collection _ (mapItemPath_ne_collection _) k hk
  · intro db ms os body k
    unfold routeObserverItemPut ObserverItem.put
    repeat' split
    all_goals intro hk
    all_goals try simp [noEffect] at hk
    all_goals rcases hk with h' | h'
    all_goals first
      | exact cacheKeys_not_collection _ (mapItemPath_ne_collection _) k h'
      | exact cacheKeys_not_collection _ (observerReqPath_ne_collection ms os) k h'
  · intro db ms os k
    unfold routeObserverItemDelete ObserverItem.delete
    repeat' split
    all_goals intro hk
    all_goals try simp [noEffect] at hk
    rcases hk with h' | h'
    · exact cacheKeys_not_collection _ (mapItemPath_ne_collection _) k h'
    · exact cacheKeys_not_collection _ (observerReqPath_ne_collection ms os) k h'
  · intro db ms x y k
    unfold routeObstacleItemDelete ObstacleItem.delete
    repeat' split
    all_goals intro hk
    all_goals try simp [noEffect] at hk
    exact cacheKeys_not_collection _ (mapItemPath_ne_collection _) k hk

/-- Claim C2 witness: a successful observer PUT on the fixture database
invalidates exactly the parent map item keys and the request path keys. -/
theorem C2_witness :
    (ObserverItem.put db1 m1 o1 "/api/maps/test-map-1/observers/test-observer-1/"
        (JVal.obj [("name", .str "Test Observer 1"), ("x", .int 2), ("y", .int 2)])).invalidated =
      cacheKeys (mapItemPath m1) ++
        cacheKeys "/api/maps/test-map-1/observers/test-observer-1/" :=
  C2_child_mutation_invalidation.2.2.1 db1 m1 o1
    "/api/maps/test-map-1/observers/test-observer-1/"
    (JVal.obj [("name", .str "Test Observer 1"), ("x", .int 2), ("y", .int 2)])
    (by decide)

/-- Claim C3: for observer POST, obstacle POST and observer PUT with a
schema-valid body, the write goes through only when the child position lies
inside the parent map dimensions; otherwise the handler answers the
dedicated 400 outside-map error (a message distinct from any schema error)
and nothing is persisted or invalidated. -/
theorem C3_spatial_bounds_checked (db : DB) (m : MapRec) :
    (∀ body o, pyFalsy body = false →
       Observer.validate_schema body = none →
       Observer.deserialize db.nextId m.id body = some o →
       (¬(0 ≤ o.x ∧ o.x < m.width ∧ 0 ≤ o.y ∧ o.y < m.height) →
          MapObservers.post db m body = noEffect db (.badRequest "Observer is outside map")) ∧
       (∀ loc, (MapObservers.post db m body).status = .created loc →
          0 ≤ o.x ∧ o.x < m.width ∧ 0 ≤ o.y ∧ o.y < m.height)) ∧
    (∀ body o, pyFalsy body = false →
       Obstacle.validate_schema body = none →
       Obstacle.deserialize db.nextId m.id body = some o →
       (¬(0 ≤ o.x ∧ o.x < m.width ∧ 0 ≤ o.y ∧ o.y < m.height) →
          MapObstacles.post db m body = noEffect db (.badRequest "Obstacle is outside map")) ∧
       (∀ loc, (MapObstacles.post db m body).status = .created loc →
          0 ≤ o.x ∧ o.x < m.width ∧ 0 ≤ o.y ∧ o.y < m.height)) ∧
    (∀ o rp body o', pyFalsy body = false →
       Observer.validate_schema body = none →
       Observer.update_from_dict o body = some o' →
       (¬(0 ≤ o'.x ∧ o'.x < m.width ∧ 0 ≤ o'.y ∧ o'.y < m.height) →
          (ObserverItem.put db m o rp body).status = .badRequest "Observer is outside map" ∧
          (ObserverItem.put db m o rp body).invalidated = [] ∧
          persistedDB db (ObserverItem.put db m o rp body) = db) ∧
       ((ObserverItem.put db m o rp body).status = .noContent →
          0 ≤ o'.x ∧ o'.x < m.width ∧ 0 ≤ o'.y ∧ o'.y < m.height)) := by
  refine ⟨?_, ?_, ?_⟩
  · intro body o hf hv hd
    have h400 : ¬(0 ≤ o.x ∧ o.x < m.width ∧ 0 ≤ o.y ∧ o.y < m.height) →
        MapObservers.post db m body = noEffect db (.badRequest "Observer is outside map") := by
      intro hnb
      simp [MapObservers.post, hf, hv, hd, hnb]
    refine ⟨h400, ?_⟩
    intro loc h
    by_contra hnb
    rw [h400 hnb] at h
    simp [noEffect] at h
  · intro body o hf hv hd
    have h400 : ¬(0 ≤ o.x ∧ o.x < m.width ∧ 0 ≤ o.y ∧ o.y < m.height) →
        MapObstacles.post db m body = noEffect db (.badRequest "Obstacle is outside map") := by
      intro hnb
      simp [MapObstacles.post, hf, hv, hd, hnb]
    refine ⟨h400, ?_⟩
    intro loc h
    by_contra hnb
    rw [h400 hnb] at h
    simp [noEffect] at h
  · intro o rp body o' hf hv hu
    have h400 : ¬(0 ≤ o'.x ∧ o'.x < m.width ∧ 0 ≤ o'.y ∧ o'.y < m.height) →
        (ObserverItem.put db m o rp body).status = .badRequest "Observer is outside map" ∧
        (ObserverItem.put db m o rp body).invalidated = [] ∧
        persistedDB db (ObserverItem.put db m o rp body) = db := by
      intro hnb
      simp [ObserverItem.put, hf, hv, hu, hnb, persistedDB]
    refine ⟨h400, ?_⟩
    intro h
    by_contra hnb
    rw [(h400 hnb).1] at h
    simp at h

/-- Claim C3 witness: placing an observer at x = 60 on the 50-wide fixture
map is rejected with the outside-map 400 error and leaves the state alone,
matching the scenario of the spec. -/
theorem C3_witness :
    MapObservers.post db1 m1
        (JVal.obj [("name", .str "O1"), ("x", .int 60), ("y", .int 5)]) =
      noEffect db1 (.badRequest "Observer is outside map") :=
  ((C3_spatial_bounds_checked db1 m1).1
      (JVal.obj [("name", .str "O1"), ("x", .int 60), ("y", .int 5)])
      { id := 5, name := "O1", slug := "o1", vision := none, mapId := 1, x := 60, y := 5 }
      (by decide) (by decide) (by decide)).1 (by decide)

/-- Claim C7: whenever the storage layer signals a uniqueness collision at
commit time (IntegrityError) during a Map POST, Map PUT, Observer POST or
Observer PUT, the handler answers the Conflict outcome with the dedicated
already-exists message, never a generic failure; nothing is persisted, no
cache key is invalidated, and no retry happens (each handler attempts the
commit exactly once). -/
theorem C7_storage_conflict_is_409 :
    (∀ db body m', pyFalsy body = false →
       Map.validate_schema body = none →
       Map.deserialize db.nextId body = some m' →
       mapClash db.maps none m'.name m'.slug = true →
       (MapCollection.post db body).status =
         .conflict ("A map named " ++ m'.name ++ " already exists") ∧
       (MapCollection.post db body).invalidated = [] ∧
       persistedDB db (MapCollection.post db body) = db) ∧
    (∀ db m rp body m', pyFalsy body = false →
       Map.validate_schema body = none →
       Map.update_from_dict m body = some m' →
       mapClash db.maps (some m.id) m'.name m'.slug = true →
       (MapItem.put db m rp body).status =
         .conflict ("A map named " ++ m'.name ++ " already exists") ∧
       (MapItem.put db m rp body).invalidated = [] ∧
       persistedDB db (MapItem.put db m rp body) = db) ∧
    (∀ db m body o, pyFalsy body = false →
       Observer.validate_schema body = none →
       Observer.deserialize db.nextId m.id body = some o →
       (0 ≤ o.x ∧ o.x < m.width ∧ 0 ≤ o.y ∧ o.y < m.height) →
       observerClash db.observers none o.name o.slug = true →
       (MapObservers.post db m body).status =
         .conflict ("An observer named " ++ o.name ++ " already exists") ∧
       (MapObservers.post db m body).invalidated = [] ∧
       persistedDB db (MapObservers.post db m body) = db) ∧
    (∀ db m o rp body o', pyFalsy body = false →
       Observer.validate_schema body = none →
       Observer.update_from_dict o body = some o' →
       (0 ≤ o'.x ∧ o'.x < m.width ∧ 0 ≤ o'.y ∧ o'.y < m.height) →
       observerClash db.observers (some o.id) o'.name o'.slug = true →
       (ObserverItem.put db m o rp body).status =
         .conflict ("An observer named " ++ o'.name ++ " already exists") ∧
       (ObserverItem.put db m o rp body).invalidated = [] ∧
       persistedDB db (ObserverItem.put db m o rp body) = db) := by
  refine ⟨?_, ?_, ?_, ?_⟩
  · intro db body m' hf hv hd hc
    simp [MapCollection.post, hf, hv, hd, hc, persistedDB]
  · intro db m rp body m' hf hv hu hc
    simp [MapItem.put, hf, hv, hu, hc, persistedDB]
  · intro db m body o hf hv hd hb hc
    simp [MapObservers.post, hf, hv, hd, hb, hc, persistedDB]
  · intro db m o rp body o' hf hv hu hb hc
    simp [ObserverItem.put, hf, hv, hu, hb, hc, persistedDB]

/-- Claim C7 witness: creating a second map named like the fixture map ends
in the Conflict outcome with nothing persisted and nothing invalidated. -/
theorem C7_witness :
    (MapCollection.post db1
        (JVal.obj [("name", .str "Test Map 1"), ("width", .int 10), ("height", .int 10)])).status =
      .conflict ("A map named " ++ "Test Map 1" ++ " already exists") ∧
    (MapCollection.post db1
        (JVal.obj [("name", .str "Test Map 1"), ("width", .int 10), ("height", .int 10)])).invalidated = [] ∧
    persistedDB db1 (MapCollection.post db1
        (JVal.obj [("name", .str "Test Map 1"), ("width", .int 10), ("height", .int 10)])) = db1 :=
  C7_storage_conflict_is_409.1 db1
    (JVal.obj [("name", .str "Test Map 1"), ("width", .int 10), ("height", .int 10)])
    { id := 5, name := "Test Map 1", slug := "test-map-1", width := 10, height := 10 }
    (by decide) (by decide) (by decide) (by decide)

/-- Claim C6 counterexample: deleting the fixture map returns 204, but
repeating the same DELETE returns 404, not the same success status, because
the map converter re-resolves the slug before the handler runs. -/
theorem C6_counterexample :
    (routeMapItemDelete db1 "test-map-1").status = .noContent ∧
    (routeMapItemDelete (persistedDB db1 (routeMapItemDelete db1 "test-map-1"))
        "test-map-1").status = .notFound := by
  decide

/-- Claim C6 as amended: only the obstacle tuple DELETE is idempotent at the
HTTP layer (a repeat still answers 204); repeating a Map or Observer item
DELETE answers 404 because the slug converters re-verify presence while
resolving the URL; and no repetition of any DELETE can produce a 500-class
failure, since every delete route answers either 204 or 404. -/
theorem C6_delete_repetition :
    (∀ db s x y, (routeObstacleItemDelete db s x y).status = .noContent →
       (routeObstacleItemDelete (persistedDB db (routeObstacleItemDelete db s x y)) s x y).status =
         .noContent) ∧
    (∀ db s, (db.maps.map (fun r => r.slug)).Nodup →
       (routeMapItemDelete db s).status = .noContent →
       (routeMapItemDelete (persistedDB db (routeMapItemDelete db s)) s).status = .notFound) ∧
    (∀ db ms os, (db.observers.map (fun r => r.slug)).Nodup →
       (routeObserverItemDelete db ms os).status = .noContent →
       (routeObserverItemDelete (persistedDB db (routeObserverItemDelete db ms os)) ms os).status =
         .notFound) ∧
    (∀ db s, (routeMapItemDelete db s).status = .noContent ∨
       (routeMapItemDelete db s).status = .notFound) ∧
    (∀ db ms os, (routeObserverItemDelete db ms os).status = .noContent ∨
       (routeObserverItemDelete db ms os).status = .notFound) ∧
    (∀ db s x y, (routeObstacleItemDelete db s x y).status = .noContent ∨
       (routeObstacleItemDelete db s x y).status = .notFound) := by
  refine ⟨?_, ?_, ?_, ?_, ?_, ?_⟩
  · intro db s x y h
    cases hc : MapConverter.to_python db s with
    | none => simp only [routeObstacleItemDelete, hc] at h; simp [noEffect] at h
    | some m =>
      have hp : persistedDB db (routeObstacleItemDelete db s x y) = db := by
        simp [routeObstacleItemDelete, hc, ObstacleItem.delete, persistedDB]
      rw [hp]
      simp [routeObstacleItemDelete, hc, ObstacleItem.delete]
  · intro db s hnd h
    cases hc : MapConverter.to_python db s with
    | none => simp only [routeMapItemDelete, hc] at h; simp [noEffect] at h
    | some m =>
      obtain ⟨hm, hs⟩ := mapConverter_mem db s m hc
      have hp : persistedDB db (routeMapItemDelete db s) =
          { db with maps := db.maps.filter (fun r => !(r.id == m.id)),
                    observers := db.observers.filter (fun o => !(o.mapId == m.id)),
                    obstacles := db.obstacles.filter (fun o => !(o.mapId == m.id)) } := by
        simp [routeMapItemDelete, hc, MapItem.delete, persistedDB]
      rw [hp]
      have hfil : (db.maps.filter (fun r => !(r.id == m.id))).filter
          (fun r => r.slug == s) = [] := by
        rw [List.filter_eq_nil_iff]
        intro r hr hslug
        rw [List.mem_filter] at hr
        have hid : ¬(r.id = m.id) := by simpa using hr.2
        have hsl : r.slug = m.slug := by
          have h1 : r.slug = s := by simpa using hslug
          rw [h1, hs]
        have hrm := List.inj_on_of_nodup_map hnd hr.1 hm hsl
        exact hid (congrArg MapRec.id hrm)
      have hnone : MapConverter.to_python
          { db with maps := db.maps.filter (fun r => !(r.id == m.id)),
                    observers := db.observers.filter (fun o => !(o.mapId == m.id)),
                    obstacles := db.obstacles.filter (fun o => !(o.mapId == m.id)) } s = none := by
        rw [MapConverter.to_python]
        simp [hfil]
      simp [routeMapItemDelete, hnone, noEffect]
  · intro db ms os hnd h
    cases hc : MapConverter.to_python db ms with
    | none => simp only [routeObserverItemDelete, hc] at h; simp [noEffect] at h
    | some m =>
      cases ho : ObserverConverter.to_python db os with
      | none => simp only [routeObserverItemDelete, hc, ho] at h; simp [noEffect] at h
      | some o =>
        obtain ⟨hom, hos⟩ := observerConverter_mem db os o ho
        have hp : persistedDB db (routeObserverItemDelete db ms os) =
            { db with observers := db.observers.filter (fun r => !(r.id == o.id)) } := by
          simp [routeObserverItemDelete, hc, ho, ObserverItem.delete, persistedDB]
        rw [hp]
        have hc2 : MapConverter.to_python
            { db with observers := db.observers.filter (fun r => !(r.id == o.id)) } ms =
              some m := hc
        have hfil : (db.observers.filter (fun r => !(r.id == o.id))).filter
            (fun r => r.slug == os) = [] := by
          rw [List.filter_eq_nil_iff]
          intro r hr hslug
          rw [List.mem_filter] at hr
          have hid : ¬(r.id = o.id) := by simpa using hr.2
          have hsl : r.slug = o.slug := by
            have h1 : r.slug = os := by simpa using hslug
            rw [h1, hos]
          have hro := List.inj_on_of_nodup_map hnd hr.1 hom hsl
          exact hid (congrArg ObserverRec.id hro)
        have hnone : ObserverConverter.to_python
            { db with observers := db.observers.filter (fun r => !(r.id == o.id)) } os = none := by
          rw [ObserverConverter.to_python]
          simp [hfil]
        simp [routeObserverItemDelete, hc2, hnone, noEffect]
  · intro db s
    cases hc : MapConverter.to_python db s with
    | none => right; simp [routeMapItemDelete, hc, noEffect]
    | some m => left; simp [routeMapItemDelete, hc, MapItem.delete]
  · intro db ms os
    cases hc : MapConverter.to_python db ms with
    | none => right; simp [routeObserverItemDelete, hc, noEffect]
    | some m =>
      cases ho : ObserverConverter.to_python db os with
      | none => right; simp [routeObserverItemDelete, hc, ho, noEffect]
      | some o => left; simp [routeObserverItemDelete, hc, ho, ObserverItem.delete]
  · intro db s x y
    cases hc : MapConverter.to_python db s with
    | none => right; simp [routeObstacleItemDelete, hc, noEffect]
    | some m => left; simp [routeObstacleItemDelete, hc, ObstacleItem.delete]

/-- Claim C6 witness: deleting the fixture observer answers 204, and
repeating that DELETE answers 404. -/
theorem C6_witness :
    (routeObserverItemDelete (persistedDB db1
        (routeObserverItemDelete db1 "test-map-1" "test-observer-1"))
      "test-map-1" "test-observer-1").status = .notFound :=
  C6_delete_repetition.2.2.1 db1 "test-map-1" "test-observer-1" (by decide) (by decide)

end GridMap
